import Mathlib

/-!
Verification of the conversation turn-taking coordinator of the
importador-github-func repository.

The development shallowly embeds the state-bearing parts of the source:

* `src/src/components/ConversationInterface.tsx` — two documents separated by
  a document marker; the first (lines 1-358) is the container wired to
  `ConversationHandler`/`SpeechHandler`, the second (lines 359-774) is the
  self-contained coordinator whose line numbers the claims cite.
* `src/src/pages/Holmes.tsx` (second document, lines 115-417) — the
  `useConversationState` hook.
* `src/src/hooks/useSpeechRecognition.ts` — the recognition hook.
* `src/src/components/VoiceAgentCard.tsx` (second document, lines 183-312) —
  `ConversationHandler` with its restart reentrancy guard.

React effect bodies and `setTimeout` continuations are modelled as explicit
transition functions on state records; asynchronous interleavings are event
traces folded over a step function.  Messages are modelled by their `sender`
and `text` fields; `id` (uuid) and `timestamp` fields of the source carry no
information any claim depends on and are dropped.
-/

/-- Whitespace test matching the characters JavaScript `String.prototype.trim`
removes in the inputs that occur here (space, tab, newline, carriage return). -/
def isJsWs (c : Char) : Bool :=
  c = ' ' || c = '\t' || c = '\n' || c = '\r'

/-- Model of the JavaScript emptiness test `!text.trim()` used at
`ConversationInterface.tsx` line 595 and `Holmes.tsx` line 301: the trimmed
string is empty exactly when every character is whitespace. -/
def jsTrimIsEmpty (s : String) : Bool :=
  s.data.all isJsWs

/-- `leadsWith pat l` holds when `pat` is a leading segment of `l`. -/
def leadsWith : List Char → List Char → Bool
  | [], _ => true
  | _ :: _, [] => false
  | p :: ps, c :: cs => p = c && leadsWith ps cs

/-- `containsSeq l pat` holds when `pat` occurs contiguously inside `l`. -/
def containsSeq : List Char → List Char → Bool
  | [], pat => pat.isEmpty
  | c :: cs, pat => leadsWith pat (c :: cs) || containsSeq cs pat

/-- Model of JavaScript `haystack.includes(needle)` as used in
`error.includes("quota")` at `ConversationInterface.tsx` line 541. -/
def jsIncludes (s pat : String) : Bool :=
  containsSeq s.data pat.data

/-- Message sender, from the `Message` type of `ConversationLog`
(`src/unnamed/part_001`): `sender: 'user' | 'assistant'`. -/
inductive Sender where
  | user
  | assistant
deriving DecidableEq, Repr

/-- Conversation message, from the `Message` type of `ConversationLog`
(`src/unnamed/part_001`), keeping the claim-relevant `sender` and `text`
fields (`id` and `timestamp` are dropped, see the file header). -/
structure Msg where
  sender : Sender
  text : String
deriving DecidableEq, Repr

/-- Model of `createUserMessage` (`@/utils/messageUtils`, called at
`Holmes.tsx` line 305); mirrors the inline user-message construction at
`ConversationInterface.tsx` lines 601-606. -/
def createUserMessage (text : String) : Msg :=
  ⟨Sender.user, text⟩

/-- Model of `createAssistantMessage` (`@/utils/messageUtils`, called at
`Holmes.tsx` line 334); mirrors the inline assistant-message construction at
`ConversationInterface.tsx` lines 612-617. -/
def createAssistantMessage (text : String) : Msg :=
  ⟨Sender.assistant, text⟩

/-- Microphone permission, from `permissionState` of
`useSpeechRecognition.ts` (a `PermissionState` or `null`); the coordinator
only ever tests `microphonePermission !== 'denied'`. -/
inductive MicPerm where
  | granted
  | denied
  | unknown
deriving DecidableEq, Repr

/-- State owned by `useConversationState` (`Holmes.tsx` lines 127-141),
restricted to the fields the claims touch.  `isGenerating`/`isPlaying` are
owned by the `useElevenLabs` collaborator and are not part of this record;
`sendMessage` never writes them. -/
structure HolmesState where
  messages : List Msg
  isListening : Bool
  isMicMuted : Bool
  isMuted : Bool
  volume : ℚ
  isLoading : Bool
  shouldAutoListen : Bool
  currentTranscript : String
  micPermission : MicPerm
deriving DecidableEq, Repr

/-- Observable commands `sendMessage` issues to its collaborators. -/
inductive HolmesEffect where
  | fetchReply (text : String)
  | toastShown (title : String)
  | speechRequested (text : String)
  | listenScheduled (delayMs : Nat)
deriving DecidableEq, Repr

/-- Resolution of the awaited work inside `sendMessage`: either the reply
fetch rejects (network / non-ok HTTP status, `Holmes.tsx` lines 320-329),
or it resolves with a reply text, in which case `speechFailed` records
whether a subsequent `generateSpeech` call (line 339) rejects. -/
inductive ReplyOutcome where
  | success (responseText : String) (speechFailed : Option String)
  | failure (errMsg : String)
deriving DecidableEq, Repr

/-- Embedding of `useConversationState.sendMessage` (`Holmes.tsx` lines
300-367).  The early return models line 301; the user message append models
lines 305-306; the `success` branch models lines 331-349 (assistant append,
then either `generateSpeech` + `setShouldAutoListen(true)` when
`!isMuted && volume > 0`, or the muted 1000 ms auto-listen timer); the
`failure` branch models the catch block lines 350-363 (destructive toast and
the 1000 ms auto-listen timer — no message is appended there); `isLoading`
is cleared in the finally block, line 365.  The scheduled timer body is the
separate `autoListenFire`. -/
def sendMessage (text : String) (outcome : ReplyOutcome) (s : HolmesState) :
    HolmesState × List HolmesEffect :=
  if jsTrimIsEmpty text then (s, [])
  else
    let s1 : HolmesState :=
      { s with isLoading := true, messages := s.messages ++ [createUserMessage text] }
    match outcome with
    | ReplyOutcome.success resp speechFailed =>
      let s2 : HolmesState := { s1 with messages := s1.messages ++ [createAssistantMessage resp] }
      if s2.isMuted = false ∧ 0 < s2.volume then
        match speechFailed with
        | none =>
          ({ s2 with shouldAutoListen := true, isLoading := false },
            [HolmesEffect.fetchReply text, HolmesEffect.speechRequested resp])
        | some _ =>
          ({ s2 with isLoading := false },
            [HolmesEffect.fetchReply text, HolmesEffect.speechRequested resp,
              HolmesEffect.toastShown "Error", HolmesEffect.listenScheduled 1000])
      else
        ({ s2 with isLoading := false },
          [HolmesEffect.fetchReply text, HolmesEffect.listenScheduled 1000])
    | ReplyOutcome.failure _ =>
      ({ s1 with isLoading := false },
        [HolmesEffect.fetchReply text, HolmesEffect.toastShown "Error",
          HolmesEffect.listenScheduled 1000])

/-- Body of the 1000 ms `setTimeout` scheduled by `sendMessage` in its muted
branch (`Holmes.tsx` lines 343-348) and in its catch block (lines 358-363):
re-arm listening only if the mic is not muted and permission is not denied. -/
def autoListenFire (s : HolmesState) : HolmesState :=
  if s.isMicMuted = false ∧ s.micPermission ≠ MicPerm.denied then
    { s with isListening := true }
  else s

/-- The `onTranscript` continuation handed to `useSpeechRecognition`
(`Holmes.tsx` lines 165-167): interim text only updates
`currentTranscript`. -/
def holmesOnTranscript (text : String) (s : HolmesState) : HolmesState :=
  { s with currentTranscript := text }

/-- A concrete `useConversationState` state used by counterexamples and
witnesses: fresh session, output unmuted at the default volume 0.8
(`Holmes.tsx` line 132), mic available. -/
def holmesInit : HolmesState :=
  { messages := []
    isListening := false
    isMicMuted := false
    isMuted := false
    volume := (4 : ℚ) / 5
    isLoading := false
    shouldAutoListen := false
    currentTranscript := ""
    micPermission := MicPerm.granted }

/-- Accumulated observable output of the `ttsError` effect
(`ConversationInterface.tsx` lines 537-560): toast count, inline transcript
entries, and the previous value of the `error` dependency. -/
structure TtsErrorAcc where
  toasts : Nat
  inlineMessages : List Msg
  prevError : Option String
deriving DecidableEq, Repr

/-- Body of the `ttsError` effect for a non-null error value
(`ConversationInterface.tsx` lines 538-559): a toast is shown only when the
error does not include "quota" (lines 541-549; the quota case only logs to
the console), and an inline assistant-sender error message is always
appended (lines 551-558). -/
def ttsErrorEffectBody (e : String) (acc : TtsErrorAcc) : TtsErrorAcc :=
  let acc1 :=
    if jsIncludes e "quota" then acc else { acc with toasts := acc.toasts + 1 }
  { acc1 with
      inlineMessages := acc1.inlineMessages ++
        [⟨Sender.assistant,
          "I\x27m having trouble with my voice output. " ++
            (if jsIncludes e "quota" then "The API quota has been exceeded."
              else "Please check if the Voice ID is correct.")⟩] }

/-- React semantics of `useEffect(..., [error])` over a stream of values of
the `error` dependency: the effect body runs exactly when the value differs
from the previous one, and the `if (error)` guard at line 538 skips null. -/
def ttsErrorEffectRuns : List (Option String) → TtsErrorAcc → TtsErrorAcc
  | [], acc => acc
  | e :: es, acc =>
    if e = acc.prevError then ttsErrorEffectRuns es acc
    else
      match e with
      | some m => ttsErrorEffectRuns es (ttsErrorEffectBody m { acc with prevError := e })
      | none => ttsErrorEffectRuns es { acc with prevError := e }

/-- Initial accumulator: no toasts, no inline entries, `error` starts null
(`useState<string | null>(null)` at `ConversationInterface.tsx` line 31 and
the `error` state of `useElevenLabs`). -/
def ttsInit : TtsErrorAcc :=
  ⟨0, [], none⟩

/-- Discrete events of the recognition hook observable by the coordinator:
an `onend` firing of the underlying recognition object, and a final
transcript delivery.  The interim transcript is a replaced value, not an
event (spec §4.2), and is modelled as the `transcript` state field. -/
inductive SREvent where
  | onendFired
  | finalFired (text : String)
deriving DecidableEq, Repr

/-- State of `useSpeechRecognition`: whether the underlying
`SpeechRecognition` object is running, and the exposed interim
`transcript`. -/
structure SRState where
  recRunning : Bool
  transcript : String
deriving DecidableEq, Repr

/-- Embedding of the stop branch of the start/stop effect of
`useSpeechRecognition.ts` (lines 194-205) together with the effect cleanup
(lines 207-213): `recognition.stop()` — a no-op without events when the
recognition is not active, an `onend` firing otherwise — then
`setTranscript('')` and `onTranscript?.('')`; any exception from `stop` is
caught and swallowed, so the function is total. -/
def stopRecognitionBranch (s : SRState) : SRState × List SREvent :=
  let evs := if s.recRunning then [SREvent.onendFired] else []
  (⟨false, ""⟩, evs)

/-- One entry of a `SpeechRecognitionEvent.results` list: the transcript of
its first alternative and its `isFinal` flag. -/
structure SRRes where
  transcript : String
  isFinal : Bool
deriving DecidableEq, Repr

/-- The accumulation loop of `recognitionInstance.onresult`
(`useSpeechRecognition.ts` lines 96-99): concatenate the transcripts from
`resultIndex` on, and keep the `isFinal` flag of the last entry visited. -/
def onresultLoop : List SRRes → String → Bool → String × Bool
  | [], acc, fin => (acc, fin)
  | r :: rs, acc, _ => onresultLoop rs (acc ++ r.transcript) r.isFinal

/-- Observable outcome of one `onresult` firing: the exposed interim
transcript afterwards, the value delivered to the interim callback, and the
discrete events fired. -/
structure OnResultOut where
  newTranscript : String
  deliveredInterim : String
  events : List SREvent
deriving DecidableEq, Repr

/-- Embedding of `recognitionInstance.onresult`
(`useSpeechRecognition.ts` lines 92-111).  The handler closure has access to
the hook state (`prevTranscript`) but never reads it: the current transcript
is built only from the event results.  `setTranscript(currentTranscript)`
and `onTranscript?.(currentTranscript)` always run; when the last result is
final, `onFinalTranscript` fires and `setTranscript('')` resets the exposed
interim value. -/
def onresultHandler (prevTranscript : String) (results : List SRRes)
    (resultIndex : Nat) : OnResultOut :=
  let _ := prevTranscript
  let out := onresultLoop (results.drop resultIndex) "" false
  { newTranscript := if out.2 then "" else out.1
    deliveredInterim := out.1
    events := if out.2 then [SREvent.finalFired out.1] else [] }

/-- Conditions the `recognition.onend` restart logic reads from its closure
(`ConversationInterface.tsx` lines 465-468): input mode, auto-start setting,
mic mute, and audio activity at timer fire. -/
structure RCtx where
  voiceMode : Bool
  autoStartMic : Bool
  isMicMuted : Bool
  isPlaying : Bool
  isGenerating : Bool
deriving DecidableEq, Repr

/-- State of the bounded-restart controller
(`ConversationInterface.tsx` lines 461-481): the one-shot
`hasAttemptedSpeechRecognition` ref, whether the 1000 ms restart timer and
the 5000 ms cooldown timer are outstanding, the number of automatic restart
attempts performed, and the listening flag. -/
structure RSt where
  hasAttempted : Bool
  pendingRestart : Bool
  pendingCooldown : Bool
  attempts : Nat
  listening : Bool
deriving DecidableEq, Repr

/-- `recognition.onend` (`ConversationInterface.tsx` lines 461-481):
listening stops; if in voice mode with auto-start on, mic unmuted, and the
one-shot flag clear, the flag is set and a 1000 ms restart timer is
scheduled. -/
def rOnend (c : RCtx) (s : RSt) : RSt :=
  let s1 := { s with listening := false }
  if c.voiceMode && c.autoStartMic && !c.isMicMuted && !s.hasAttempted then
    { s1 with hasAttempted := true, pendingRestart := true }
  else s1

/-- The 1000 ms restart timer body (`ConversationInterface.tsx` lines
467-479): if no audio is active, attempt `recognition.start()` (counted as
one automatic restart attempt) and schedule the 5000 ms cooldown that will
clear the one-shot flag; otherwise do nothing — note the flag then stays
set. -/
def rRestartFire (c : RCtx) (s : RSt) : RSt :=
  if s.pendingRestart then
    let s1 := { s with pendingRestart := false }
    if !c.isPlaying && !c.isGenerating then
      { s1 with attempts := s1.attempts + 1, listening := true, pendingCooldown := true }
    else s1
  else s

/-- The 5000 ms cooldown timer body (`ConversationInterface.tsx` lines
475-477): clear the one-shot flag. -/
def rCooldown (s : RSt) : RSt :=
  if s.pendingCooldown then
    { s with pendingCooldown := false, hasAttempted := false }
  else s

/-- Events driving the bounded-restart controller. -/
inductive REv where
  | onend (c : RCtx)
  | restartFire (c : RCtx)
  | cooldownFire
deriving DecidableEq, Repr

/-- Step function of the bounded-restart controller. -/
def stepR (s : RSt) : REv → RSt
  | REv.onend c => rOnend c s
  | REv.restartFire c => rRestartFire c s
  | REv.cooldownFire => rCooldown s

/-- Idle initial state of the bounded-restart controller: flag clear, no
timers outstanding, no attempts performed. -/
def initR : RSt :=
  ⟨false, false, false, 0, false⟩

/-- Run of the bounded-restart controller over a trace of events. -/
def runR (evs : List REv) : RSt :=
  evs.foldl stepR initR

/-- Inductive invariant for the bounded-restart controller on cooldown-free
traces: an outstanding restart timer implies the flag is set and no attempt
has been performed yet, and the attempt count is bounded by the flag. -/
def rInv (s : RSt) : Prop :=
  (s.pendingRestart = true → s.hasAttempted = true ∧ s.attempts = 0) ∧
    s.attempts ≤ (if s.hasAttempted then 1 else 0)

/-- State of `ConversationHandler` (`VoiceAgentCard.tsx` second document,
lines 220-222 and 277-307): the previous webhook/agent refs (`none`
models `undefined`), the `restartingRef` reentrancy guard, whether the
500 ms restart timer is outstanding, and how many times
`restartConversation` has executed. -/
structure CHSt where
  prevWebhook : Option String
  prevAgent : Option String
  restarting : Bool
  pendingTimer : Bool
  restartCount : Nat
deriving DecidableEq, Repr

/-- Embedding of the configuration-change effect
(`VoiceAgentCard.tsx` lines 277-307): when the webhook or agent changed, and
this is not the initial load (`previousWebhookUrlRef.current !== undefined`),
and no restart is already in progress, set the guard and schedule the 500 ms
restart timer; in every changed case, update the refs. -/
def configChangeF (w a : Option String) (s : CHSt) : CHSt :=
  if s.prevWebhook ≠ w ∨ s.prevAgent ≠ a then
    let s1 :=
      if s.prevWebhook ≠ none then
        if s.restarting = false then { s with restarting := true, pendingTimer := true }
        else s
      else s
    { s1 with prevWebhook := w, prevAgent := a }
  else s

/-- The 500 ms restart timer body (`VoiceAgentCard.tsx` lines 296-299):
execute `restartConversation()` and clear the reentrancy guard. -/
def restartTimerF (s : CHSt) : CHSt :=
  if s.pendingTimer then
    { s with
        pendingTimer := false, restartCount := s.restartCount + 1,
        restarting := false }
  else s

/-- Coordinator state of the self-contained `ConversationInterface`
(`ConversationInterface.tsx` second document, lines 383-397): the message
log, the texts whose 1000 ms reply timer is outstanding, and the listening /
playback / generation / mute flags.  `isPlaying` and `isGenerating` mirror
the booleans `useElevenLabs` exposes; `ttsError` is the hook error surfaced
at lines 537-539. -/
structure CIState where
  messages : List Msg
  pending : List String
  isListening : Bool
  isPlaying : Bool
  isGenerating : Bool
  isMicMuted : Bool
  isMuted : Bool
  autoStartMic : Bool
  ttsError : Option String
deriving DecidableEq, Repr

/-- The canned assistant reply of `processUserInput`
(`ConversationInterface.tsx` line 611). -/
def ciResponse (text : String) : String :=
  "I understand you said: " ++ text ++
    ". I\x27m here to help you with any questions or tasks."

/-- Modelled from the spec: `stopAudio` of the `useElevenLabs` hook, whose
source is not in the repository snapshot.  Spec §5 (Cancellation): stopping
playback is effective immediately — no operation appears active to the
coordinator after the stop call returns — so both `isPlaying` and
`isGenerating` are cleared. -/
def stopAudioF (s : CIState) : CIState :=
  { s with isPlaying := false, isGenerating := false }

/-- Embedding of `startListening` (`ConversationInterface.tsx` lines
636-657): refuse while audio is playing or generating or the mic is muted
(lines 637-640); no-op when already listening (line 642); otherwise
`recognition.start()` succeeds and `onstart` (lines 456-459) sets
listening. -/
def startListeningF (s : CIState) : CIState :=
  if s.isPlaying || s.isGenerating || s.isMicMuted then s
  else if s.isListening then s
  else { s with isListening := true }

/-- Embedding of `processUserInput` (`ConversationInterface.tsx` lines
594-634) up to its suspension point: early return on blank input (line 595),
stop recognition if listening (lines 597-599), append the user message
(lines 601-608), and schedule the 1000 ms reply timer (line 610). -/
def processUserInputF (text : String) (s : CIState) : CIState :=
  if jsTrimIsEmpty text then s
  else
    let s1 := if s.isListening then { s with isListening := false } else s
    { s1 with
        messages := s1.messages ++ [createUserMessage text],
        pending := s1.pending ++ [text] }

/-- Embedding of the 1000 ms reply continuation of `processUserInput`
(`ConversationInterface.tsx` lines 610-633): append the canned assistant
reply unconditionally — no session-validity re-check occurs — then, when
output is unmuted and no TTS error is recorded, stop recognition and invoke
`generateSpeech` (the effect at lines 410-416 keeps the mic stopped while
audio is active); otherwise the 300 ms `startListening` timer of line 631 is
a later `startListenReq` event. -/
def replyFireF (text : String) (s : CIState) : CIState :=
  let s1 :=
    { s with
        messages := s.messages ++ [createAssistantMessage (ciResponse text)],
        pending := s.pending.erase text }
  if s1.isMuted = false ∧ s1.ttsError = none then
    { s1 with isListening := false, isGenerating := true }
  else s1

/-- Synthesis resolved and playback begun (spec §4.3 for the missing
`useElevenLabs` internals: generation hands over to playback), combined with
the enforcement effect at `ConversationInterface.tsx` lines 410-416 that
stops the microphone completely while audio is active. -/
def genDoneF (s : CIState) : CIState :=
  { s with isGenerating := false, isPlaying := true, isListening := false }

/-- Synthesis rejected: generation stops and the hook error is surfaced into
`ttsError` (`ConversationInterface.tsx` lines 537-539). -/
def genFailF (e : String) (s : CIState) : CIState :=
  { s with isGenerating := false, ttsError := some e }

/-- Playback ended (the `isPlaying` boolean of `useElevenLabs` drops). -/
def playEndF (s : CIState) : CIState :=
  { s with isPlaying := false }

/-- `recognition.onend` (`ConversationInterface.tsx` lines 461-463):
listening stops.  The bounded-restart scheduling this handler also performs
is verified separately on the `RSt` machine. -/
def recEndF (s : CIState) : CIState :=
  { s with isListening := false }

/-- The restart-timer body of `recognition.onend`
(`ConversationInterface.tsx` lines 467-471): re-start recognition only if no
audio is active at timer fire. -/
def restartFireF (s : CIState) : CIState :=
  if !s.isPlaying && !s.isGenerating then { s with isListening := true } else s

/-- Embedding of `handleMicMuteToggle` (`ConversationInterface.tsx` lines
679-690): flip the mic mute; on muting while listening, stop recognition
(its `onend` clears the flag); on unmuting, the 300 ms `startListening`
timer of line 684 is a later `startListenReq` event. -/
def handleMicMuteToggleF (s : CIState) : CIState :=
  let nm := !s.isMicMuted
  let s1 := { s with isMicMuted := nm }
  if nm && s1.isListening then { s1 with isListening := false } else s1

/-- Embedding of `handleMuteToggle` (`ConversationInterface.tsx` lines
700-705): flip the output mute and stop audio if playing. -/
def handleMuteToggleF (s : CIState) : CIState :=
  let s1 := { s with isMuted := !s.isMuted }
  if s1.isPlaying then stopAudioF s1 else s1

/-- Embedding of `toggleListening` (`ConversationInterface.tsx` lines
659-677): refuse when the mic is muted; stop audio first when it is active;
then either stop recognition (when listening) or go through the guarded
`startListening`. -/
def toggleListeningF (s : CIState) : CIState :=
  if s.isMicMuted then s
  else
    let s1 := if s.isPlaying || s.isGenerating then stopAudioF s else s
    if s1.isListening then { s1 with isListening := false }
    else startListeningF s1

/-- Embedding of `handleEndConversation` (`ConversationInterface.tsx` first
document, lines 117-134, with `endConversation` instantiated to
`setMessages([])` at line 310): stop audio, mute the mic, reset speech and
stop listening, and clear the message log.  Nothing cancels the outstanding
reply timers of `processUserInput`, so `pending` is untouched. -/
def endConvF (s : CIState) : CIState :=
  { s with
      messages := [], isMicMuted := true, isListening := false,
      isPlaying := false, isGenerating := false }

/-- The welcome-message mount effect (`ConversationInterface.tsx` lines
562-579): when output is unmuted, `generateSpeech` starts for the welcome
text; the enforcement effect of lines 410-416 keeps the mic stopped while
generation is active. -/
def welcomeSpeechF (s : CIState) : CIState :=
  if s.isMuted then s else { s with isGenerating := true, isListening := false }

/-- Events of the coordinator machine.  Each constructor corresponds to one
callback, effect body, or timer continuation of the source. -/
inductive CIEvent where
  | userInput (text : String)
  | replyFire (text : String)
  | genDone
  | genFail (e : String)
  | playEnd
  | startListenReq
  | recEnd
  | restartFire
  | micMuteToggle
  | muteToggle
  | toggleListen
  | endConv
  | welcomeSpeech
deriving DecidableEq, Repr

/-- Step function of the coordinator machine, dispatching to the embedded
handlers. -/
def stepCI (s : CIState) : CIEvent → CIState
  | CIEvent.userInput t => processUserInputF t s
  | CIEvent.replyFire t => replyFireF t s
  | CIEvent.genDone => genDoneF s
  | CIEvent.genFail e => genFailF e s
  | CIEvent.playEnd => playEndF s
  | CIEvent.startListenReq => startListeningF s
  | CIEvent.recEnd => recEndF s
  | CIEvent.restartFire => restartFireF s
  | CIEvent.micMuteToggle => handleMicMuteToggleF s
  | CIEvent.muteToggle => handleMuteToggleF s
  | CIEvent.toggleListen => toggleListeningF s
  | CIEvent.endConv => endConvF s
  | CIEvent.welcomeSpeech => welcomeSpeechF s

/-- Initial coordinator state at mount (`ConversationInterface.tsx` lines
383-397 and the welcome effect at 562-570): the welcome message in the log,
nothing pending, no audio active, mic unmuted, output unmuted, auto-start
on. -/
def initCI : CIState :=
  { messages := [⟨Sender.assistant, "Hello! How can I help you today?"⟩]
    pending := []
    isListening := false
    isPlaying := false
    isGenerating := false
    isMicMuted := false
    isMuted := false
    autoStartMic := true
    ttsError := none }

/-- Run of the coordinator machine from the initial state. -/
def runCI (evs : List CIEvent) : CIState :=
  evs.foldl stepCI initCI

/-- The mutual-exclusion invariant: the microphone is never capturing while
audio is playing. -/
def invCI (s : CIState) : Prop :=
  s.isListening = true → s.isPlaying = false

/-- What actually happens on a rejected reply fetch (conclusion of the
amended claim C4): only the user message was appended — no error `Msg`
reaches the log — a destructive "Error" toast is shown, no synthesis is
requested, the 1000 ms auto-listen timer is scheduled, and its firing
re-arms listening when the mic is unmuted and permission is not denied. -/
def replyFailureConcl (s : HolmesState) (text errMsg : String) : Prop :=
  (sendMessage text (ReplyOutcome.failure errMsg) s).1.messages
      = s.messages ++ [createUserMessage text] ∧
  HolmesEffect.toastShown "Error" ∈ (sendMessage text (ReplyOutcome.failure errMsg) s).2 ∧
  HolmesEffect.listenScheduled 1000 ∈ (sendMessage text (ReplyOutcome.failure errMsg) s).2 ∧
  (∀ t, HolmesEffect.speechRequested t ∉ (sendMessage text (ReplyOutcome.failure errMsg) s).2) ∧
  (s.isMicMuted = false → s.micPermission ≠ MicPerm.denied →
    (autoListenFire (sendMessage text (ReplyOutcome.failure errMsg) s).1).isListening = true)

/-- Conclusion of claim C5 (muted-output bypass), for `sendMessage` of
`Holmes.tsx` and for the muted branch of the `processUserInput` reply
continuation of `ConversationInterface.tsx`: the assistant message is still
appended, no synthesis is requested, the auto-listen timer is scheduled and
its firing re-arms capture, and the synthesis markers
(`shouldAutoListen` / `isGenerating`) stay untouched. -/
def mutedBypassConcl (s : HolmesState) (text resp : String) (sf : Option String) : Prop :=
  (sendMessage text (ReplyOutcome.success resp sf) s).1.messages
      = s.messages ++ [createUserMessage text, createAssistantMessage resp] ∧
  (∀ t, HolmesEffect.speechRequested t ∉ (sendMessage text (ReplyOutcome.success resp sf) s).2) ∧
  HolmesEffect.listenScheduled 1000 ∈ (sendMessage text (ReplyOutcome.success resp sf) s).2 ∧
  (sendMessage text (ReplyOutcome.success resp sf) s).1.isListening = s.isListening ∧
  (sendMessage text (ReplyOutcome.success resp sf) s).1.shouldAutoListen = s.shouldAutoListen ∧
  (s.isMicMuted = false → s.micPermission ≠ MicPerm.denied →
    (autoListenFire (sendMessage text (ReplyOutcome.success resp sf) s).1).isListening = true) ∧
  (∀ (cs : CIState) (t : String), cs.isMuted = true →
    (stepCI cs (CIEvent.replyFire t)).isGenerating = cs.isGenerating ∧
    (stepCI cs (CIEvent.replyFire t)).isListening = cs.isListening ∧
    (stepCI cs (CIEvent.replyFire t)).messages
      = cs.messages ++ [createAssistantMessage (ciResponse t)])

/-- Conclusion of claim C7: with no restart in progress, a configuration
change schedules a restart, a second change arriving during the in-progress
restart adds nothing, and exactly one `restartConversation` executes — also
after the (absent) second timer would have fired. -/
def reentrancyConcl (s : CHSt) (w1 a1 w2 a2 : Option String) : Prop :=
  (configChangeF w2 a2 (configChangeF w1 a1 s)).pendingTimer = true ∧
  (configChangeF w2 a2 (configChangeF w1 a1 s)).restartCount = s.restartCount ∧
  (restartTimerF (configChangeF w2 a2 (configChangeF w1 a1 s))).restartCount
      = s.restartCount + 1 ∧
  (restartTimerF (restartTimerF (configChangeF w2 a2 (configChangeF w1 a1 s)))).restartCount
      = s.restartCount + 1

/-- Claim C9: for every input string whose trimmed text is empty, both
`processUserInput` and `sendMessage` return immediately — the message log is
unchanged, no reply fetch is issued, no synthesis is requested, and capture
state is not altered. -/
theorem C9_empty_input_noop :
    ∀ text : String, jsTrimIsEmpty text = true →
      (∀ (outcome : ReplyOutcome) (s : HolmesState), sendMessage text outcome s = (s, [])) ∧
      (∀ s : CIState, stepCI s (CIEvent.userInput text) = s) := by
  intro text h
  refine ⟨fun outcome s => ?_, fun s => ?_⟩
  · simp [sendMessage, h]
  · simp [stepCI, processUserInputF, h]

/-- Witness for C9 at the concrete whitespace-only input consisting of two
spaces. -/
theorem C9_empty_input_noop_witness :
    jsTrimIsEmpty "  " = true ∧
      sendMessage "  " (ReplyOutcome.failure "net") holmesInit = (holmesInit, []) ∧
      stepCI initCI (CIEvent.userInput "  ") = initCI :=
  ⟨by decide, (C9_empty_input_noop "  " (by decide)).1 (ReplyOutcome.failure "net") holmesInit,
    (C9_empty_input_noop "  " (by decide)).2 initCI⟩

/-- Claim C4, counterexample: the reply fetch rejects while a reply is
awaited, yet the message log afterwards holds only the user message — no
system or inline error `Msg` is appended by the catch block of
`sendMessage` (`Holmes.tsx` lines 350-366), which only shows a toast. -/
theorem C4_reply_failure_counterexample :
    (sendMessage "hi" (ReplyOutcome.failure "network down") holmesInit).1.messages
        = [createUserMessage "hi"] ∧
    ((sendMessage "hi" (ReplyOutcome.failure "network down") holmesInit).1.messages.all
        (fun m => m.sender = Sender.user)) = true := by
  constructor
  · decide
  · decide

/-- Claim C4 (amended): whenever the reply collaborator rejects while a
reply is awaited, no `Msg` is appended to the log beyond the user message —
instead a destructive "Error" toast notification is shown — no synthesis is
requested, and auto-listen is scheduled; when its 1000 ms timer fires with
the mic unmuted and permission not denied, the coordinator returns to
Listening. -/
theorem C4_reply_failure_amended :
    ∀ (s : HolmesState) (text errMsg : String), jsTrimIsEmpty text = false →
      replyFailureConcl s text errMsg := by
  intro s text errMsg h
  refine ⟨?_, ?_, ?_, ?_, ?_⟩
  · simp [sendMessage, h]
  · simp [sendMessage, h]
  · simp [sendMessage, h]
  · intro t
    simp [sendMessage, h]
  · intro hmic hperm
    simp [sendMessage, h, autoListenFire, hmic, hperm]

/-- Witness for the amended C4 at a concrete state and inputs. -/
theorem C4_reply_failure_amended_witness :
    jsTrimIsEmpty "hi" = false ∧ replyFailureConcl holmesInit "hi" "boom" :=
  ⟨by decide, C4_reply_failure_amended holmesInit "hi" "boom" (by decide)⟩

/-- Claim C5: for every reply that resolves while output is muted, the
assistant message is still appended to the log, no synthesis or playback is
invoked, and the coordinator goes straight to re-armed listening after the
scheduled delay, bypassing the synthesis path (its markers
`shouldAutoListen` / `isGenerating` stay untouched) — proved for
`sendMessage` of `Holmes.tsx` lines 331-349 and for the muted branch of the
`processUserInput` reply continuation, `ConversationInterface.tsx` lines
619-633. -/
theorem C5_muted_bypass :
    ∀ (s : HolmesState) (text resp : String) (sf : Option String),
      jsTrimIsEmpty text = false → s.isMuted = true →
      mutedBypassConcl s text resp sf := by
  intro s text resp sf h hm
  refine ⟨?_, ?_, ?_, ?_, ?_, ?_, ?_⟩
  · simp [sendMessage, h, hm]
  · intro t
    simp [sendMessage, h, hm]
  · simp [sendMessage, h, hm]
  · simp [sendMessage, h, hm]
  · simp [sendMessage, h, hm]
  · intro hmic hperm
    simp [sendMessage, h, hm, autoListenFire, hmic, hperm]
  · intro cs t hcm
    refine ⟨?_, ?_, ?_⟩ <;> simp [stepCI, replyFireF, hcm]

/-- Witness for C5 at a concrete muted state and inputs. -/
theorem C5_muted_bypass_witness :
    jsTrimIsEmpty "hi" = false ∧ ({ holmesInit with isMuted := true } : HolmesState).isMuted = true ∧
      mutedBypassConcl { holmesInit with isMuted := true } "hi" "hello there" none :=
  ⟨by decide, rfl,
    C5_muted_bypass { holmesInit with isMuted := true } "hi" "hello there" none (by decide) rfl⟩

/-- Claim C8: stopping capture is safe and idempotent for every starting
state — a second stop right after a first produces no further recognition
events and no state change, and a stop while not capturing produces no
events at all; the source swallows any `stop` exception
(`useSpeechRecognition.ts` lines 194-213), so the embedded branch is a total
function. -/
theorem C8_idempotent_stop :
    (∀ s : SRState,
        stopRecognitionBranch (stopRecognitionBranch s).1 = ((stopRecognitionBranch s).1, [])) ∧
    (∀ s : SRState, s.recRunning = false → (stopRecognitionBranch s).2 = []) ∧
    (∀ s : SRState, (stopRecognitionBranch s).1.recRunning = false ∧
        (stopRecognitionBranch s).1.transcript = "") := by
  refine ⟨fun s => ?_, fun s h => ?_, fun s => ⟨rfl, rfl⟩⟩
  · rfl
  · simp [stopRecognitionBranch, h]

/-- Witness for C8 at a concrete non-capturing state. -/
theorem C8_idempotent_stop_witness :
    (⟨false, "abc"⟩ : SRState).recRunning = false ∧
      (stopRecognitionBranch ⟨false, "abc"⟩).2 = [] :=
  ⟨rfl, C8_idempotent_stop.2.1 ⟨false, "abc"⟩ rfl⟩

/-- Claim C10: whenever a final transcript fires the exposed interim
transcript is reset to the empty string; stopping recognition also resets it;
the `onresult` handler never reads the previous interim value (so one
utterance is never prepended to the next); and interim text reaches the
coordinator only through the interim callback, which leaves the message log
untouched. -/
theorem C10_interim_reset :
    (∀ (p : String) (results : List SRRes) (idx : Nat) (t : String),
        SREvent.finalFired t ∈ (onresultHandler p results idx).events →
        (onresultHandler p results idx).newTranscript = "") ∧
    (∀ s : SRState, (stopRecognitionBranch s).1.transcript = "") ∧
    (∀ (p q : String) (results : List SRRes) (idx : Nat),
        onresultHandler p results idx = onresultHandler q results idx) ∧
    (∀ (t : String) (s : HolmesState), (holmesOnTranscript t s).messages = s.messages) := by
  refine ⟨fun p results idx t h => ?_, fun s => rfl, fun p q results idx => rfl,
    fun t s => rfl⟩
  unfold onresultHandler at h ⊢
  rcases hfin : (onresultLoop (results.drop idx) "" false).2 with _ | _
  · simp [hfin] at h
  · simp [hfin]

/-- Witness for C10 at a single final result: the final event fires with the
collected text and the exposed interim transcript afterwards is empty. -/
theorem C10_interim_reset_witness :
    SREvent.finalFired "hello" ∈ (onresultHandler "stale" [⟨"hello", true⟩] 0).events ∧
      (onresultHandler "stale" [⟨"hello", true⟩] 0).newTranscript = "" :=
  ⟨by decide, C10_interim_reset.1 "stale" [⟨"hello", true⟩] 0 "hello" (by decide)⟩

/-- Claim C3, counterexample: two consecutive distinct quota-exceeded
synthesis failures in one session produce ZERO user-visible toasts — not
exactly one — while two inline transcript error entries are appended; the
effect at `ConversationInterface.tsx` lines 537-560 never toasts an error
containing "quota", it only logs it to the console. -/
theorem C3_quota_suppression_counterexample :
    (ttsErrorEffectRuns [some "quota exceeded (a)", some "quota exceeded (b)"] ttsInit).toasts
        = 0 ∧
    (ttsErrorEffectRuns [some "quota exceeded (a)", some "quota exceeded (b)"]
        ttsInit).inlineMessages.length = 2 ∧
    ¬((ttsErrorEffectRuns [some "quota exceeded (a)", some "quota exceeded (b)"]
        ttsInit).toasts = 1) := by
  refine ⟨by decide, by decide, by decide⟩

/-- Claim C3 (amended): two consecutive distinct `SynthesisQuotaExceeded`
failures in one session produce no user-visible notification at all — quota
alerts are suppressed entirely rather than rate-limited to one — and two
inline transcript error entries, one per distinct failure value. -/
theorem C3_quota_suppression_amended :
    ∀ e1 e2 : String, jsIncludes e1 "quota" = true → jsIncludes e2 "quota" = true →
      e1 ≠ e2 →
      (ttsErrorEffectRuns [some e1, some e2] ttsInit).toasts = 0 ∧
      (ttsErrorEffectRuns [some e1, some e2] ttsInit).inlineMessages.length = 2 := by
  intro e1 e2 h1 h2 hne
  have hne2 : e2 ≠ e1 := fun h => hne h.symm
  simp [ttsErrorEffectRuns, ttsErrorEffectBody, ttsInit, h1, h2, hne2]

/-- Witness for the amended C3 at two concrete distinct quota errors. -/
theorem C3_quota_suppression_amended_witness :
    jsIncludes "quota exceeded (a)" "quota" = true ∧
      jsIncludes "quota exceeded (b)" "quota" = true ∧
      (ttsErrorEffectRuns [some "quota exceeded (a)", some "quota exceeded (b)"]
          ttsInit).toasts = 0 ∧
      (ttsErrorEffectRuns [some "quota exceeded (a)", some "quota exceeded (b)"]
          ttsInit).inlineMessages.length = 2 :=
  ⟨by decide, by decide,
    (C3_quota_suppression_amended "quota exceeded (a)" "quota exceeded (b)"
      (by decide) (by decide) (by decide)).1,
    (C3_quota_suppression_amended "quota exceeded (a)" "quota exceeded (b)"
      (by decide) (by decide) (by decide)).2⟩

/-- Preservation of the bounded-restart invariant by every non-cooldown
event. -/
lemma stepR_preserves_rInv (s : RSt) (e : REv) (hne : e ≠ REv.cooldownFire)
    (hinv : rInv s) : rInv (stepR s e) := by
  obtain ⟨h1, h2⟩ := hinv
  cases e with
  | cooldownFire => exact absurd rfl hne
  | onend c =>
    by_cases hb : (c.voiceMode && c.autoStartMic && !c.isMicMuted && !s.hasAttempted) = true
    · have hfa : s.hasAttempted = false := by
        rcases hfa : s.hasAttempted with _ | _
        · rfl
        · simp [hfa] at hb
      have hz : s.attempts = 0 := by
        rw [hfa] at h2
        simpa using h2
      refine ⟨fun _ => ⟨?_, ?_⟩, ?_⟩ <;> simp [stepR, rOnend, hb, hz]
    · refine ⟨fun hp => ?_, ?_⟩
      · have := h1 (by simpa [stepR, rOnend, hb] using hp)
        simpa [stepR, rOnend, hb] using this
      · simpa [stepR, rOnend, hb] using h2
  | restartFire c =>
    by_cases hp : s.pendingRestart = true
    · obtain ⟨hfa, hz⟩ := h1 hp
      by_cases hq : (!c.isPlaying && !c.isGenerating) = true
      · refine ⟨fun hcon => ?_, ?_⟩
        · simp [stepR, rRestartFire, hp, hq] at hcon
        · simp [stepR, rRestartFire, hp, hq, hfa, hz]
      · refine ⟨fun hcon => ?_, ?_⟩
        · simp [stepR, rRestartFire, hp, hq] at hcon
        · simp [stepR, rRestartFire, hp, hq, hfa, hz]
    · have hp' : s.pendingRestart = false := by
        rcases h : s.pendingRestart with _ | _
        · rfl
        · exact absurd h hp
      refine ⟨fun hcon => ?_, ?_⟩
      · simp [stepR, rRestartFire, hp'] at hcon
      · simpa [stepR, rRestartFire, hp'] using h2

/-- The bounded-restart invariant holds along every cooldown-free trace. -/
lemma foldl_rInv (evs : List REv) :
    ∀ s : RSt, (∀ e ∈ evs, e ≠ REv.cooldownFire) → rInv s →
      rInv (evs.foldl stepR s) := by
  induction evs with
  | nil => exact fun s _ h => h
  | cons e es ih =>
    intro s hall hs
    exact ih (stepR s e)
      (fun x hx => hall x (List.mem_cons_of_mem _ hx))
      (stepR_preserves_rInv s e (hall e (List.mem_cons_self _ _)) hs)

/-- Claim C6: within any single idle window — any trace of recognition-end
and restart-timer events containing no cooldown reset, starting from the
idle controller state — the number of automatic restart attempts never
exceeds one, and the one-shot guard flag can only be cleared by the cooldown
event. -/
theorem C6_bounded_restart :
    (∀ evs : List REv, (∀ e ∈ evs, e ≠ REv.cooldownFire) → (runR evs).attempts ≤ 1) ∧
    (∀ (s : RSt) (e : REv), e ≠ REv.cooldownFire → s.hasAttempted = true →
        (stepR s e).hasAttempted = true) := by
  constructor
  · intro evs hall
    have hinit : rInv initR := by
      refine ⟨fun hp => ?_, ?_⟩ <;> simp [initR] at *
    have h := (foldl_rInv evs initR hall hinit).2
    rcases hfa : (runR evs).hasAttempted with _ | _ <;>
      rw [runR] at * <;> simp [hfa] at h <;> omega
  · intro s e hne hfa
    cases e with
    | cooldownFire => exact absurd rfl hne
    | onend c => simp [stepR, rOnend, hfa]
    | restartFire c =>
      by_cases hp : s.pendingRestart = true <;>
        by_cases hq : (!c.isPlaying && !c.isGenerating) = true <;>
        simp [stepR, rRestartFire, hp, hq, hfa]

/-- Witness for C6: a cooldown-free trace with two unexpected recognition
ends and two timer firings performs exactly one restart attempt, and a set
guard flag survives a further onend event. -/
theorem C6_bounded_restart_witness :
    (∀ e ∈ ([REv.onend ⟨true, true, false, false, false⟩,
        REv.restartFire ⟨true, true, false, false, false⟩,
        REv.onend ⟨true, true, false, false, false⟩,
        REv.restartFire ⟨true, true, false, false, false⟩] : List REv),
      e ≠ REv.cooldownFire) ∧
    (runR [REv.onend ⟨true, true, false, false, false⟩,
        REv.restartFire ⟨true, true, false, false, false⟩,
        REv.onend ⟨true, true, false, false, false⟩,
        REv.restartFire ⟨true, true, false, false, false⟩]).attempts ≤ 1 ∧
    (stepR ⟨true, false, false, 1, false⟩
        (REv.onend ⟨true, true, false, false, false⟩)).hasAttempted = true :=
  ⟨by decide,
    C6_bounded_restart.1 _ (by decide),
    C6_bounded_restart.2 ⟨true, false, false, 1, false⟩ _ (by decide) rfl⟩


/-- While the reentrancy guard is set, a configuration change only updates
the two refs: no restart is scheduled and no counter moves. -/
lemma configChange_while_restarting (s : CHSt) (w a : Option String)
    (hr : s.restarting = true) :
    configChangeF w a s = { s with prevWebhook := w, prevAgent := a } := by
  unfold configChangeF
  by_cases hd : s.prevWebhook ≠ w ∨ s.prevAgent ≠ a
  · simp only [hd, if_true]
    by_cases hw : s.prevWebhook ≠ none
    · simp [hw, hr]
    · simp [hw]
  · simp only [hd, if_false]
    push_neg at hd
    obtain ⟨hw2, ha2⟩ := hd
    rw [← hw2, ← ha2]

/-- Claim C7: a configuration change arriving while a restart is already in
progress only updates the refs — the reentrancy guard ignores the second
trigger — and in the double-trigger scenario exactly one
`restartConversation` executes, also after any further timer firing. -/
theorem C7_restart_reentrancy :
    (∀ (s : CHSt) (w a : Option String), s.restarting = true →
        configChangeF w a s = { s with prevWebhook := w, prevAgent := a }) ∧
    (∀ (s : CHSt) (w1 a1 w2 a2 : Option String),
        s.restarting = false → s.pendingTimer = false → s.prevWebhook ≠ none →
        (s.prevWebhook ≠ w1 ∨ s.prevAgent ≠ a1) →
        reentrancyConcl s w1 a1 w2 a2) := by
  refine ⟨configChange_while_restarting, ?_⟩
  intro s w1 a1 w2 a2 hr hp hw hd
  have h1 : configChangeF w1 a1 s
      = { s with
            restarting := true, pendingTimer := true,
            prevWebhook := w1, prevAgent := a1 } := by
    unfold configChangeF
    simp [hd, hw, hr]
  have h2 : configChangeF w2 a2 (configChangeF w1 a1 s)
      = { s with
            restarting := true, pendingTimer := true,
            prevWebhook := w2, prevAgent := a2 } := by
    rw [h1, configChange_while_restarting _ _ _ rfl]
  refine ⟨?_, ?_, ?_, ?_⟩ <;> rw [h2] <;> simp [restartTimerF]

/-- Witness for C7 at concrete states: the guard swallows a change while
restarting, and the double-trigger scenario executes one restart. -/
theorem C7_restart_reentrancy_witness :
    (⟨some "w0", some "a0", true, true, 0⟩ : CHSt).restarting = true ∧
      configChangeF (some "w1") (some "a1") ⟨some "w0", some "a0", true, true, 0⟩
        = { (⟨some "w0", some "a0", true, true, 0⟩ : CHSt) with
              prevWebhook := some "w1", prevAgent := some "a1" } ∧
      reentrancyConcl ⟨some "w0", some "a0", false, false, 0⟩
        (some "w1") (some "a1") (some "w2") (some "a2") :=
  ⟨rfl,
    C7_restart_reentrancy.1 ⟨some "w0", some "a0", true, true, 0⟩
      (some "w1") (some "a1") rfl,
    C7_restart_reentrancy.2 ⟨some "w0", some "a0", false, false, 0⟩
      (some "w1") (some "a1") (some "w2") (some "a2") rfl rfl
      (by decide) (Or.inl (by decide))⟩

/-- Claim C2, counterexample: a reply timer is pending when the session is
torn down, and its later firing still appends the stale assistant reply to
the (cleared) message log — the continuation at
`ConversationInterface.tsx` lines 610-633 performs no session-validity
re-check, and nothing cancels the timer. -/
theorem C2_stale_discard_counterexample :
    "hello" ∈ (stepCI initCI (CIEvent.userInput "hello")).pending ∧
      (runCI [CIEvent.userInput "hello", CIEvent.endConv,
          CIEvent.replyFire "hello"]).messages
        = [createAssistantMessage (ciResponse "hello")] ∧
      (runCI [CIEvent.userInput "hello", CIEvent.endConv,
          CIEvent.replyFire "hello"]).messages ≠ [] := by
  refine ⟨by decide, by decide, by decide⟩

/-- Claim C2 (amended): when session teardown occurs while a reply timer is
pending, the later-firing continuation still appends the stale assistant
reply to the cleared log — async continuations do not re-check session
validity before appending. -/
theorem C2_stale_reply_appended :
    ∀ (s : CIState) (text : String), jsTrimIsEmpty text = false →
      text ∈ (stepCI s (CIEvent.userInput text)).pending ∧
      (stepCI (stepCI (stepCI s (CIEvent.userInput text)) CIEvent.endConv)
          (CIEvent.replyFire text)).messages
        = [createAssistantMessage (ciResponse text)] := by
  intro s text h
  constructor
  · by_cases hl : s.isListening = true <;>
      simp [stepCI, processUserInputF, h, hl]
  · by_cases hl : s.isListening = true <;>
      simp [stepCI, processUserInputF, endConvF, replyFireF, h, hl] <;>
      split_ifs <;> simp

/-- Witness for the amended C2 at a concrete state and input. -/
theorem C2_stale_reply_appended_witness :
    jsTrimIsEmpty "hola" = false ∧
      "hola" ∈ (stepCI initCI (CIEvent.userInput "hola")).pending ∧
      (stepCI (stepCI (stepCI initCI (CIEvent.userInput "hola")) CIEvent.endConv)
          (CIEvent.replyFire "hola")).messages
        = [createAssistantMessage (ciResponse "hola")] :=
  ⟨by decide, (C2_stale_reply_appended initCI "hola" (by decide)).1,
    (C2_stale_reply_appended initCI "hola" (by decide)).2⟩

/-- Every coordinator event preserves the mutual-exclusion invariant. -/
lemma stepCI_preserves_invCI (s : CIState) (e : CIEvent) (h : invCI s) :
    invCI (stepCI s e) := by
  cases e with
  | userInput t =>
    by_cases ht : jsTrimIsEmpty t = true <;> by_cases hl : s.isListening = true <;>
      simp_all [stepCI, processUserInputF, invCI]
  | replyFire t =>
    intro hcon
    by_cases hb : ((replyFireF t s).isMuted = false ∧ (replyFireF t s).ttsError = none) <;>
      simp_all [stepCI, replyFireF, invCI] <;> split_ifs at hcon ⊢ <;> simp_all
  | genDone => intro hcon; simp_all [stepCI, genDoneF]
  | genFail e => intro hcon; simp_all [stepCI, genFailF, invCI]
  | playEnd => intro hcon; simp_all [stepCI, playEndF]
  | startListenReq =>
    intro hcon
    by_cases hg : (s.isPlaying || s.isGenerating || s.isMicMuted) = true <;>
      by_cases hl : s.isListening = true <;>
      simp_all [stepCI, startListeningF, invCI]
  | recEnd => intro hcon; simp_all [stepCI, recEndF]
  | restartFire =>
    intro hcon
    by_cases hg : (!s.isPlaying && !s.isGenerating) = true <;>
      simp_all [stepCI, restartFireF, invCI]
  | micMuteToggle =>
    intro hcon
    by_cases hm : (!s.isMicMuted && s.isListening) = true <;>
      simp_all [stepCI, handleMicMuteToggleF, invCI]
  | muteToggle =>
    intro hcon
    by_cases hpl : s.isPlaying = true <;>
      simp_all [stepCI, handleMuteToggleF, stopAudioF, invCI]
  | toggleListen =>
    intro hcon
    by_cases hm : s.isMicMuted = true
    · simp_all [stepCI, toggleListeningF, invCI]
    · by_cases ha : (s.isPlaying || s.isGenerating) = true <;>
        simp_all [stepCI, toggleListeningF, stopAudioF, startListeningF, invCI] <;>
        split_ifs at hcon ⊢ <;> simp_all
  | endConv => intro hcon; simp_all [stepCI, endConvF]
  | welcomeSpeech =>
    intro hcon
    by_cases hm : s.isMuted = true <;> simp_all [stepCI, welcomeSpeechF, invCI]

/-- The mutual-exclusion invariant holds along every event trace. -/
lemma foldl_invCI (evs : List CIEvent) :
    ∀ s : CIState, invCI s → invCI (evs.foldl stepCI s) := by
  induction evs with
  | nil => exact fun s h => h
  | cons e es ih => exact fun s h => ih (stepCI s e) (stepCI_preserves_invCI s e h)

/-- Claim C1: in every reachable state of the coordinator, microphone
capture and audio playback are never simultaneously active; every event
that activates generation or playback leaves capture stopped; and
`startListening` refuses to start while `isPlaying` or `isGenerating` is
true. -/
theorem C1_mutual_exclusion :
    (∀ evs : List CIEvent, ((runCI evs).isListening && (runCI evs).isPlaying) = false) ∧
    (∀ s : CIState, s.isPlaying = true ∨ s.isGenerating = true → startListeningF s = s) ∧
    (∀ s : CIState, (stepCI s CIEvent.genDone).isListening = false) ∧
    (∀ s : CIState, s.isMuted = false → (stepCI s CIEvent.welcomeSpeech).isListening = false) ∧
    (∀ (s : CIState) (t : String), s.isMuted = false → s.ttsError = none →
        (stepCI s (CIEvent.replyFire t)).isListening = false) := by
  refine ⟨?_, ?_, ?_, ?_, ?_⟩
  · intro evs
    have hinit : invCI initCI := by intro h; rfl
    have h := foldl_invCI evs initCI hinit
    rw [runCI]
    rcases hl : (evs.foldl stepCI initCI).isListening with _ | _
    · simp
    · simp [h hl]
  · intro s hs
    rcases hs with hs | hs <;> simp [startListeningF, hs]
  · intro s
    simp [stepCI, genDoneF]
  · intro s hm
    simp [stepCI, welcomeSpeechF, hm]
  · intro s t hm he
    simp [stepCI, replyFireF, hm, he]

/-- Witness for C1 at concrete states: listening is refused while playing,
and generation events stop capture. -/
theorem C1_mutual_exclusion_witness :
    startListeningF { initCI with isPlaying := true }
        = { initCI with isPlaying := true } ∧
      (stepCI initCI CIEvent.welcomeSpeech).isListening = false ∧
      (stepCI initCI (CIEvent.replyFire "hey")).isListening = false :=
  ⟨C1_mutual_exclusion.2.1 { initCI with isPlaying := true } (Or.inl rfl),
    C1_mutual_exclusion.2.2.2.1 initCI rfl,
    C1_mutual_exclusion.2.2.2.2 initCI "hey" rfl rfl⟩
